import Mathlib

/-!
Shallow embedding of the vin-agent-service repository
(src/server.js, src/scraper/index.js, src/unnamed/part_000).

The JavaScript string/number primitives the code relies on
(String.prototype.split with a whitespace regex, parseInt, trim,
first-occurrence replace, truthiness) are embedded first; then the
row-parsing, reconciliation, frame-discovery and HTTP-handler logic.
-/

namespace VinAgent

/-- Embeds the JavaScript expression s.split(/\s+/): the string is cut at
maximal runs of whitespace; a leading or trailing run contributes one empty
token, interior runs contribute none. -/
def jsSplitWs (s : String) : List String :=
  let groups := s.toList.splitOnP Char.isWhitespace
  let lead := if groups.headD [] = ([] : List Char) then [""] else ([] : List String)
  let mid := (groups.filter (fun g => g ≠ [])).map (fun g => String.mk g)
  let trail :=
    if 2 ≤ groups.length ∧ groups.getLastD [] = ([] : List Char) then [""]
    else ([] : List String)
  lead ++ mid ++ trail

/-- Embeds JavaScript s.trim(): whitespace is removed from both ends. -/
def jsTrim (s : String) : String :=
  String.mk (((s.toList.dropWhile Char.isWhitespace).reverse.dropWhile Char.isWhitespace).reverse)

/-- Embeds JavaScript s.toLowerCase(). -/
def jsToLower (s : String) : String :=
  String.mk (s.toList.map Char.toLower)

/-- Checks that the first list is a prefix of the second. -/
def hasPrefixChars : List Char → List Char → Bool
  | [], _ => true
  | _ :: _, [] => false
  | p :: ps, c :: cs => p == c && hasPrefixChars ps cs

/-- Substring search over character lists. -/
def includesChars : List Char → List Char → Bool
  | [], pat => hasPrefixChars pat []
  | c :: rest, pat => hasPrefixChars pat (c :: rest) || includesChars rest pat

/-- Embeds JavaScript s.includes(pat). -/
def jsIncludes (s pat : String) : Bool :=
  includesChars s.toList pat.toList

/-- Replaces the first occurrence of pat in the character list by repl. -/
def replaceFirstChars : List Char → List Char → List Char → List Char
  | [], pat, repl => if hasPrefixChars pat [] then repl else []
  | c :: rest, pat, repl =>
    if hasPrefixChars pat (c :: rest) then repl ++ (c :: rest).drop pat.length
    else c :: replaceFirstChars rest pat repl

/-- Embeds JavaScript s.replace(pat, repl) with a string pattern: only the
first occurrence of pat is replaced. -/
def jsReplaceFirst (s pat repl : String) : String :=
  String.mk (replaceFirstChars s.toList pat.toList repl.toList)

/-- Embeds JavaScript parseInt(s) in base 10: leading whitespace is skipped,
an optional sign is read, then the maximal digit run; the result is NaN
(here: none) when no digit follows. -/
def jsParseInt (s : String) : Option Int :=
  let cs := s.toList.dropWhile Char.isWhitespace
  let signAndRest : Int × List Char :=
    match cs with
    | '-' :: r => (-1, r)
    | '+' :: r => (1, r)
    | _ => (1, cs)
  let digits := signAndRest.2.takeWhile Char.isDigit
  if digits = [] then none
  else some (signAndRest.1 * (digits.foldl (fun a c => a * 10 + (c.toNat - '0'.toNat)) 0 : Nat))

/-- Embeds JavaScript truthiness of an optional string (undefined and the
empty string are falsy). -/
def jsTruthyStr : Option String → Bool
  | none => false
  | some s => s ≠ ""

/-! Row parsing and normalization (src/scraper/index.js lines 207-262,
identical in src/unnamed/part_000 lines 247-302). -/

/-- The record produced for one table row by the page-evaluate callback of
scrapeVINInventory. vin is null (none) when the trimmed cell text is empty;
year is null (none) when the combined year/make column cannot be parsed. -/
structure VehicleRecord where
  stock_number : String
  year : Option Int
  make : String
  model : String
  trimLevel : String
  vin : Option String
  status : String
  deriving Repr, DecidableEq

/-- Embeds cells[i]?.textContent?.trim() || '' where the list holds each
cell's textContent. -/
def cellText (cells : List String) (i : Nat) : String :=
  jsTrim ((cells.get? i).getD "")

/-- Embeds the year/make block of the row callback: the combined column text
(e.g. "24 Chevrolet") is split on whitespace; the first token is parsed with
parseInt and kept only when truthy and not NaN, adding 2000 when below 100;
the remaining tokens joined by single spaces form the make. -/
def parseYearMake (carfaxText : String) : Option Int × String :=
  if carfaxText ≠ "" then
    let parts := jsSplitWs carfaxText
    if 2 ≤ parts.length then
      let yearStr := parts.headD ""
      let make := String.intercalate " " (parts.drop 1)
      match jsParseInt yearStr with
      | some y =>
        if y ≠ 0 then
          (if y < 100 then (some (2000 + y), make) else (some y, make))
        else (none, make)
      | none => (none, make)
    else (none, "")
  else (none, "")

/-- Embeds the body of rows.map in scrapeVINInventory: null for a row with
fewer than 8 cells, otherwise the positional extraction of stock number
(column 2), combined year/make (column 5), model (column 6), trim (column 7)
and vin (column 8). -/
def parseRow (cells : List String) : Option VehicleRecord :=
  if cells.length < 8 then none
  else
    let stockNumber := cellText cells 1
    let carfaxText := cellText cells 4
    let modelText := cellText cells 5
    let trimText := cellText cells 6
    let vin := cellText cells 7
    let ym := parseYearMake carfaxText
    some { stock_number := stockNumber
           year := ym.1
           make := ym.2
           model := modelText
           trimLevel := trimText
           vin := if vin = "" then none else some vin
           status := "available" }

/-- Embeds rows.slice(1).map(...).filter(v => v && v.stock_number) applied to
the data rows (the header row already removed by slice(1)): null entries and
entries with a falsy (empty) stock_number are dropped. -/
def parseDataRows (rows : List (List String)) : List VehicleRecord :=
  ((rows.map parseRow).filterMap id).filter (fun v => v.stock_number ≠ "")

/-- Embeds the full extraction: document.querySelectorAll('table tr') gives
rows whose first element is the header, removed by slice(1). -/
def parseTableRows (rows : List (List String)) : List VehicleRecord :=
  parseDataRows (rows.drop 1)

/-! Reconciliation (src/scraper/index.js lines 288-338). The store is the
inventory table restricted to the columns the scraper writes; the upsert is
the INSERT ... ON CONFLICT (stock_number) DO UPDATE statement, which
overwrites year, make, model, trim, vin and status with the incoming values
and reports (xmax = 0), i.e. whether the row was freshly inserted. -/

/-- The persisted store keyed by the natural key stock_number; the SQL UNIQUE
constraint is the invariant that keys are distinct. -/
abbrev Store := List VehicleRecord

/-- Embeds one execution of the upsert statement: insert when no row carries
the stock_number, otherwise overwrite that row's mutable fields; the Bool is
the RETURNING (xmax = 0) AS inserted column. -/
def upsert (store : Store) (v : VehicleRecord) : Store × Bool :=
  if (List.any store fun r => r.stock_number = v.stock_number) then
    (List.map (fun r => if r.stock_number = v.stock_number then v else r) store, false)
  else (store ++ [v], true)

/-- Reconciles a list of records in order into the store, starting from a
given store state (the loop for (const vehicle of vehicles) with every upsert
succeeding). -/
def reconcile (store : Store) : List VehicleRecord → Store
  | [] => store
  | v :: vs => reconcile (upsert store v).1 vs

/-- Looks a stock number up in the store. -/
def lookup (store : Store) (key : String) : Option VehicleRecord :=
  List.find? (fun r => r.stock_number = key) store

/-! The sync outcome (src/scraper/index.js lines 264-338): counter updates of
the reconciliation loop, and the structured result object. The database call
is an external capability; its outcome for the record at each position is a
parameter. -/

/-- The outcome the pool.query upsert call can have for one record: a
successful insert (xmax = 0 true), a successful update, or a thrown error
(caught by the per-record try/catch). -/
inductive UpsertOutcome where
  | insertedRow
  | updatedRow
  | failed (msg : String)
  deriving Repr, DecidableEq

/-- The object scrapeVINInventory resolves with after the table was found. -/
structure SyncResult where
  success : Bool
  error : Option String
  vehiclesFound : Nat
  inserted : Nat
  updated : Nat
  errors : Nat
  deriving Repr, DecidableEq

/-- Embeds the counting loop: each record bumps exactly one of the three
counters according to the database outcome at its position. -/
def reconcileCounts (db : Nat → UpsertOutcome) : List VehicleRecord → Nat → Nat × Nat × Nat
  | [], _ => (0, 0, 0)
  | _ :: vs, i =>
    let rest := reconcileCounts db vs (i + 1)
    match db i with
    | .insertedRow => (rest.1 + 1, rest.2.1, rest.2.2)
    | .updatedRow => (rest.1, rest.2.1 + 1, rest.2.2)
    | .failed _ => (rest.1, rest.2.1, rest.2.2 + 1)

/-- Embeds scrapeVINInventory from the point where vehicles has been
extracted: an empty list returns the structured success:false result with
zeroed counters; otherwise the loop runs over all records and the success
result reports the three counters. -/
def syncOutcome (db : Nat → UpsertOutcome) (vehicles : List VehicleRecord) : SyncResult :=
  if vehicles.length = 0 then
    { success := false
      error := some "No vehicles found in table"
      vehiclesFound := 0, inserted := 0, updated := 0, errors := 0 }
  else
    let c := reconcileCounts db vehicles 0
    { success := true
      error := none
      vehiclesFound := vehicles.length
      inserted := c.1, updated := c.2.1, errors := c.2.2 }

/-! Dynamic iframe discovery (src/unnamed/part_000 lines 156-243). The
browser is an external capability; what each polling attempt observes is a
parameter: none models the waitForSelector('iframe', 5000) timeout of that
attempt, some frames models page.frames(). -/

/-- What one frame of the page looks like to the discovery loop: its url, and
the two probes the loop performs on it (frame has a table; count of table td
cells). -/
structure Frame where
  url : String
  hasTable : Bool
  cellCount : Nat
  deriving Repr, DecidableEq

/-- One frame is accepted by the loop body when it is not a
signin.coxautoinc.com frame, contains a table, and that table has more than
50 cells. -/
def frameQualifies (f : Frame) : Bool :=
  !(jsIncludes f.url "signin.coxautoinc.com") && f.hasTable && decide (50 < f.cellCount)

/-- The fixed bound of the polling loop (const maxAttempts = 15). -/
def maxAttempts : Nat := 15

/-- The fixed inter-attempt delay in milliseconds (setTimeout(resolve, 2000)). -/
def interAttemptDelayMs : Nat := 2000

/-- Embeds the while (!inventoryFrame && attempt < maxAttempts) loop: attempt
is incremented on entry, the attempt either times out waiting for an iframe
(continue) or scans page.frames() in order, selecting the first qualifying
frame and exiting immediately. Returns the attempts made and the selected
frame, if any. -/
def discoverLoop (sched : Nat → Option (List Frame)) : Nat → Nat → Nat × Option Frame
  | attempt, 0 => (attempt, none)
  | attempt, fuel + 1 =>
    let a := attempt + 1
    match sched a with
    | none => discoverLoop sched a fuel
    | some frames =>
      match frames.find? frameQualifies with
      | some f => (a, some f)
      | none => discoverLoop sched a fuel

/-- The discovery phase as run by scrapeVINInventory: start at attempt 0 with
the fixed bound. -/
def discoverInventoryFrame (sched : Nat → Option (List Frame)) : Nat × Option Frame :=
  discoverLoop sched 0 maxAttempts

/-- Embeds the check after the loop: a missing frame throws the descriptive
error, otherwise scraping proceeds with the found frame. -/
def discoveryResult (sched : Nat → Option (List Frame)) : Except String Frame :=
  match (discoverInventoryFrame sched).2 with
  | some f => Except.ok f
  | none => Except.error "Could not find iframe containing inventory table after 30 seconds"

/-! Reply-suggestion endpoint (src/server.js lines 32-247). -/

/-- One conversation turn as sent in the request body. -/
structure Turn where
  sender : String
  text : String
  deriving Repr, DecidableEq

/-- The optional lead descriptor of the request body (fields the prompt
builder reads). -/
structure Lead where
  name : Option String
  vehicleYear : Option String
  vehicleMake : Option String
  vehicleModel : Option String
  deriving Repr, DecidableEq

/-- The optional page descriptor of the request body (field the prompt
builder reads). -/
structure PageMeta where
  channel : Option String
  deriving Repr, DecidableEq

/-- Embeds requireAuth (src/server.js lines 32-41): the request passes when
the configured token is falsy (unset or empty), or when the authorization
header with its first "Bearer " occurrence removed equals the configured
token; otherwise a 401 is sent. -/
def requireAuth (authHeader internalToken : Option String) : Bool :=
  let token := authHeader.map (fun h => jsReplaceFirst h "Bearer " "")
  !jsTruthyStr internalToken || token == internalToken

/-- Embeds buildSystemPrompt (src/server.js lines 46-83) at a dealership
name. -/
def buildSystemPrompt (dealershipName : String) : String :=
  "You are an AI assistant for " ++ dealershipName ++ ", a Chevrolet dealership helping BDC representatives craft professional, engaging email replies.\n\n" ++
  "YOUR ROLE:\nGenerate ONE natural-sounding email reply that the BDC rep can send to the customer.\n\n" ++
  "CRITICAL RULES FOR EVERY REPLY:\n" ++
  "1. **Acknowledge specific customer concerns** - Reference what they actually said (payment constraints, timing concerns, specific questions)\n" ++
  "2. **Reference conversation timing** - If they mentioned an appointment, service visit, or deadline, work that into the reply naturally\n" ++
  "3. **Suggest a concrete next step** - Always end with a clear, low-pressure action (schedule call, get trade value, review numbers during appointment)\n" ++
  "4. **Match their tone** - If formal, be professional. If casual, be friendly but still professional\n" ++
  "5. **Keep it concise** - 2-4 sentences maximum. BDC reps are busy, customers don't read long emails\n" ++
  "6. **NEVER invent numbers** - No prices, payments, trade values, or financial specifics unless already provided in the conversation\n" ++
  "7. **Be consultative, not pushy** - Use phrases like \"Would you be open to...\", \"Let me check if...\", \"No pressure at all...\"\n\n" ++
  "STRUCTURE (follow this pattern):\n" ++
  "- Sentence 1: Acknowledge their specific concern or question\n" ++
  "- Sentence 2: Bridge to a benefit or possibility\n" ++
  "- Sentence 3-4: Suggest next step with clear call-to-action\n\n" ++
  "TONE GUIDELINES:\n" ++
  "✅ Warm, helpful, conversational\n" ++
  "✅ Professional but approachable\n" ++
  "✅ Use \"I\" and \"you\" (personal connection)\n" ++
  "✅ Low-pressure, consultative approach\n" ++
  "❌ No corporate jargon or buzzwords\n" ++
  "❌ No pushy sales language\n" ++
  "❌ No generic template phrases\n\n" ++
  "EXAMPLE (for lease buyout inquiry):\n" ++
  "\"Hi Nicole! I completely understand wanting to avoid any early termination fees. Let me pull some numbers on your current vehicle's market value - if we can structure a new lease that keeps you in the same trim level at or below your current payment, would you be open to reviewing the details during your service visit tomorrow? No pressure at all, just want to see if the numbers work in your favor!\"\n\n" ++
  "RESPONSE FORMAT:\nReturn a JSON object with this structure:\n\x7b\n  \"reply\": \"Your single suggested response here\"\n\x7d"

/-- Embeds the per-message serialization of buildUserPrompt's messages.map
callback. -/
def serializeTurn (m : Turn) : String :=
  (if m.sender = "customer" then "Customer" else "Rep") ++ ": " ++ m.text

/-- Embeds the context.push chain of buildUserPrompt: the lines pushed for a
truthy lead name, any truthy vehicle-interest field, and a truthy channel. -/
def contextLines (lead : Lead) (page : PageMeta) : List String :=
  let context : List String := []
  let context := if jsTruthyStr lead.name then
      context ++ ["Customer name: " ++ lead.name.getD ""] else context
  let context :=
    if jsTruthyStr lead.vehicleYear || jsTruthyStr lead.vehicleMake || jsTruthyStr lead.vehicleModel then
      context ++ ["Vehicle interest: " ++ String.intercalate " "
        ((([lead.vehicleYear, lead.vehicleMake, lead.vehicleModel]).filter jsTruthyStr).map (fun o => o.getD ""))]
    else context
  if jsTruthyStr page.channel then
    context ++ ["Channel: " ++ page.channel.getD ""] else context

/-- Embeds buildUserPrompt (src/server.js lines 85-106): every message of the
request is serialized as "Customer: text" or "Rep: text" joined by newlines,
preceded by the non-empty context lines. -/
def buildUserPrompt (messages : List Turn) (lead : Lead) (page : PageMeta) : String :=
  let conversationText := String.intercalate "\n" (messages.map serializeTurn)
  let context := contextLines lead page
  "CONVERSATION CONTEXT:\n" ++
  ((if 0 < context.length then String.intercalate "\n" context ++ "\n\n" else "") ++
  ("CONVERSATION HISTORY:\n" ++ (conversationText ++
  "\n\nGenerate ONE natural, engaging reply for the sales rep to send.")))

/-- A JSON value, the result of JSON.parse on the upstream model's message
content. jnull also stands for the undefined of a missing property. -/
inductive JVal where
  | jnull
  | jbool (b : Bool)
  | jnum (n : Int)
  | jstr (s : String)
  | jarr (xs : List JVal)
  | jobj (fields : List (String × JVal))

/-- Embeds JavaScript property access v?.k: for an object the value of its
first binding of k, undefined (jnull) otherwise. -/
def jget : JVal → String → JVal
  | .jobj fields, k =>
    match fields.find? (fun p => p.1 = k) with
    | some p => p.2
    | none => .jnull
  | _, _ => .jnull

/-- Embeds JavaScript truthiness of a JSON value. -/
def jsTruthy : JVal → Bool
  | .jnull => false
  | .jbool b => b
  | .jnum n => n ≠ 0
  | .jstr s => s ≠ ""
  | .jarr _ => true
  | .jobj _ => true

/-- Embeds extractReply (src/server.js lines 111-128): try parsed.reply as a
non-blank string, then parsed.suggestion, then the first element of
parsed.suggestions (a string, or an object with a text property, defaulting
to the empty string); otherwise null. -/
def extractReply (parsed : JVal) : Option String :=
  let fromReply :=
    match jget parsed "reply" with
    | .jstr s => if jsTrim s ≠ "" then some (jsTrim s) else none
    | _ => none
  match fromReply with
  | some r => some r
  | none =>
    let fromSuggestion :=
      match jget parsed "suggestion" with
      | .jstr s => if jsTrim s ≠ "" then some (jsTrim s) else none
      | _ => none
    match fromSuggestion with
    | some r => some r
    | none =>
      match jget parsed "suggestions" with
      | .jarr xs =>
        let first := xs.headD .jnull
        if jsTruthy first then
          some (match first with
                | .jstr s => jsTrim s
                | other =>
                  match jget other "text" with
                  | .jstr t => jsTrim t
                  | _ => "")
        else none
      | _ => none

/-- Environment variables the reply endpoint reads. -/
structure AgentEnv where
  internalToken : Option String
  openaiApiKey : Option String

/-- A request to POST /agent/reply: the authorization header and the body
fields the handler reads. -/
structure AgentRequest where
  authHeader : Option String
  messages : List Turn
  lead : Lead
  page : PageMeta

/-- The JSON body and status the endpoint responds with. suggestions is none
when the body carries no suggestions field at all (the requireAuth 401
body). -/
structure AgentResponse where
  status : Nat
  suggestions : Option (List String)
  error : Option String
  aiGenerated : Bool
  deriving Repr, DecidableEq

/-- What the awaited upstream call plus JSON.parse of its message content can
yield: a parsed JSON value, a parse failure on the raw content, or a thrown
error with its message (caught by the handler's catch). -/
inductive UpstreamResult where
  | parsed (v : JVal)
  | unparsable (raw : String)
  | threw (msg : String)

/-- Embeds the POST /agent/reply route (src/server.js lines 133-247) with
requireAuth in front: upstream is the external completion capability applied
to the system and user prompts. The second component records whether the
upstream call was made. -/
def agentReply (env : AgentEnv) (req : AgentRequest)
    (upstream : String → String → UpstreamResult) : AgentResponse × Bool :=
  if !requireAuth req.authHeader env.internalToken then
    ({ status := 401, suggestions := none, error := some "Unauthorized",
       aiGenerated := false }, false)
  else if req.messages.length = 0 then
    ({ status := 400, suggestions := some [], error := some "No conversation context provided",
       aiGenerated := false }, false)
  else if !jsTruthyStr env.openaiApiKey then
    ({ status := 500, suggestions := some [], error := some "OpenAI API key not configured",
       aiGenerated := false }, false)
  else
    match upstream (buildSystemPrompt "Quirk Chevrolet NH")
        (buildUserPrompt req.messages req.lead req.page) with
    | .threw msg =>
      if jsIncludes msg "API key" then
        ({ status := 500, suggestions := some [], error := some "Invalid OpenAI API key",
           aiGenerated := false }, true)
      else if jsIncludes msg "quota" || jsIncludes msg "insufficient_quota" then
        ({ status := 500, suggestions := some [],
           error := some "OpenAI quota exceeded - check your billing",
           aiGenerated := false }, true)
      else if jsIncludes msg "rate_limit" then
        ({ status := 429, suggestions := some [],
           error := some "Rate limited by OpenAI - try again in a moment",
           aiGenerated := false }, true)
      else
        ({ status := 500, suggestions := some [],
           error := some (if msg ≠ "" then msg else "Unknown error calling OpenAI"),
           aiGenerated := false }, true)
    | .unparsable _ =>
      ({ status := 500, suggestions := some [], error := some "AI generated no valid reply",
         aiGenerated := false }, true)
    | .parsed v =>
      match extractReply v with
      | some r =>
        if r ≠ "" then
          ({ status := 200, suggestions := some [r], error := none, aiGenerated := true }, true)
        else
          ({ status := 500, suggestions := some [], error := some "AI generated no valid reply",
             aiGenerated := false }, true)
      | none =>
        ({ status := 500, suggestions := some [], error := some "AI generated no valid reply",
           aiGenerated := false }, true)

/-! Inventory search endpoint (src/server.js lines 252-318). -/

/-- The JSON body and status GET /api/inventory/search responds with. -/
structure SearchResponse where
  status : Nat
  success : Bool
  error : Option String
  count : Option Nat
  vehicles : List VehicleRecord
  deriving Repr, DecidableEq

/-- Embeds q.toLowerCase().split(/\s+/).filter(t => t.length > 1). -/
def searchTerms (q : String) : List String :=
  (jsSplitWs (jsToLower q)).filter (fun t => 1 < t.length)

/-- Embeds the per-term condition template of the search route. -/
def searchCondition (idx : Nat) : String :=
  "(\n        LOWER(make) LIKE $" ++ toString (idx + 1) ++
  " OR\n        LOWER(model) LIKE $" ++ toString (idx + 1) ++
  " OR\n        LOWER(trim) LIKE $" ++ toString (idx + 1) ++
  " OR\n        CAST(year AS TEXT) LIKE $" ++ toString (idx + 1) ++ "\n      )"

/-- Embeds conditions.join(' AND ') for the term list. -/
def searchConditionsJoined (terms : List String) : String :=
  String.intercalate " AND " (terms.mapIdx fun idx _ => searchCondition idx)

/-- Embeds the assembled SQL text of the search route. -/
def searchQuery (terms : List String) : String :=
  "\n      SELECT \n        stock_number,\n        year,\n        make,\n        model,\n        trim,\n        vin,\n        body_style,\n        exterior_color,\n        mileage,\n        status\n      FROM inventory\n      WHERE status = 'available'\n      AND (" ++
  searchConditionsJoined terms ++
  ")\n      ORDER BY year DESC, make, model\n      LIMIT 10\n    "

/-- Embeds the GET /api/inventory/search route: db is the external
pool.query capability on (sql, params), erring for instance when the sql
text is not well formed. -/
def searchHandler (db : String → List String → Except String (List VehicleRecord))
    (q : Option String) : SearchResponse :=
  if !jsTruthyStr q || (q.getD "").length < 2 then
    { status := 400, success := false, error := some "Query too short",
      count := none, vehicles := [] }
  else
    let terms := searchTerms (q.getD "")
    match db (searchQuery terms) (terms.map fun t => "%" ++ t ++ "%") with
    | .ok rows =>
      { status := 200, success := true, error := none,
        count := some rows.length, vehicles := rows }
    | .error _ =>
      { status := 500, success := false, error := some "Search failed",
        count := none, vehicles := [] }

/-! Concrete sample inputs used by witness and counterexample theorems. -/

/-- A lead with no fields set. -/
def emptyLead : Lead :=
  { name := none, vehicleYear := none, vehicleMake := none, vehicleModel := none }

/-- A page descriptor with no channel. -/
def emptyPage : PageMeta := { channel := none }

/-- A one-turn conversation. -/
def sampleTurn : Turn := { sender := "customer", text := "hi" }

/-- The end-to-end sample row of the inventory table. -/
def sampleRow : List String :=
  ["", "M37385", "", "", "24 Chevrolet", "Silverado MD", "Work Truck", "HTKJPVM4RH178232"]

/-- A row whose combined year/make column carries the two-digit token 0. -/
def zeroRow : List String :=
  ["", "Z0001", "", "", "0 Chevrolet", "Malibu", "LT", "VIN00000000000000"]

/-- A short decorative row (fewer than 8 cells). -/
def headerRow : List String := ["Photos"]

/-- The parsed sample record. -/
def sampleRec : VehicleRecord :=
  { stock_number := "M37385", year := some 2024, make := "Chevrolet",
    model := "Silverado MD", trimLevel := "Work Truck",
    vin := some "HTKJPVM4RH178232", status := "available" }

/-- A second record with a distinct stock number. -/
def sampleRec2 : VehicleRecord :=
  { stock_number := "M37410", year := some 2024, make := "Chevrolet",
    model := "Silverado 1500", trimLevel := "LT",
    vin := none, status := "available" }

/-- A rescrape of sampleRec's vehicle with a changed year. -/
def sampleRecB : VehicleRecord := { sampleRec with year := some 2025 }

/-- An environment with a configured bearer token. -/
def envTok : AgentEnv := { internalToken := some "secret-token", openaiApiKey := some "sk-test" }

/-- An environment with no bearer token configured. -/
def envOpen : AgentEnv := { internalToken := none, openaiApiKey := some "sk-test" }

/-- A request that carries no authorization header. -/
def reqNoAuth : AgentRequest :=
  { authHeader := none, messages := [sampleTurn], lead := emptyLead, page := emptyPage }

/-- A request with an empty messages array. -/
def reqEmpty : AgentRequest :=
  { authHeader := none, messages := [], lead := emptyLead, page := emptyPage }

/-- An upstream capability that answers with a well-formed reply object. -/
def upstreamOk : String → String → UpstreamResult :=
  fun _ _ => UpstreamResult.parsed (JVal.jobj [("reply", JVal.jstr "Happy to help!")])

/-- A 61-turn conversation: the oldest turn is distinguishable and the newest
turn's text is whitespace only. -/
def c8msgs : List Turn :=
  { sender := "customer", text := "OLDEST" } ::
    (List.replicate 59 { sender := "rep", text := "mid" } ++
      [{ sender := "customer", text := "   " }])

/-- A qualifying inventory frame (96 table cells). -/
def frame96 : Frame :=
  { url := "https://vinsolutions.app.coxautoinc.com/vinconnect/inventory",
    hasTable := true, cellCount := 96 }

/-- A polling environment where the qualifying frame appears only on the 10th
attempt. -/
def sched10 : Nat → Option (List Frame) :=
  fun n => if n = 10 then some [frame96] else some []

/-- A polling environment where no qualifying frame ever appears. -/
def schedNever : Nat → Option (List Frame) := fun _ => some []

/-- A database capability whose per-record outcomes exercise all three
counters. -/
def dbMixed : Nat → UpsertOutcome :=
  fun i => if i = 0 then UpsertOutcome.insertedRow
    else if i = 1 then UpsertOutcome.failed "duplicate key value violates unique constraint"
    else UpsertOutcome.updatedRow

/-- A database capability whose upserts always update. -/
def dbUpd : Nat → UpsertOutcome := fun _ => UpsertOutcome.updatedRow

/-- A pool.query capability that rejects every statement with a syntax
error, as PostgreSQL does on the zero-condition WHERE clause. -/
def dbSyntaxErr : String → List String → Except String (List VehicleRecord) :=
  fun _ _ => Except.error "syntax error at or near \")\""

/-! Helper lemmas about the store and the upsert. -/

theorem stock_of_replace (r v : VehicleRecord) :
    (if r.stock_number = v.stock_number then v else r).stock_number = r.stock_number := by
  split
  · next h => exact h.symm
  · rfl

theorem find_replace_self (store : List VehicleRecord) (v : VehicleRecord)
    (h : store.any (fun r => r.stock_number = v.stock_number) = true) :
    (store.map fun r => if r.stock_number = v.stock_number then v else r).find?
      (fun r => r.stock_number = v.stock_number) = some v := by
  induction store with
  | nil => simp at h
  | cons r rs ih =>
    by_cases hr : r.stock_number = v.stock_number
    · simp [List.find?, hr]
    · have h' : rs.any (fun r => r.stock_number = v.stock_number) = true := by
        simpa [hr] using h
      simpa [List.find?, hr] using ih h'

theorem find_replace_other (store : List VehicleRecord) (v : VehicleRecord) (key : String)
    (hk : key ≠ v.stock_number) :
    (store.map fun r => if r.stock_number = v.stock_number then v else r).find?
      (fun r => r.stock_number = key) =
    store.find? (fun r => r.stock_number = key) := by
  induction store with
  | nil => rfl
  | cons r rs ih =>
    rw [List.map_cons]
    by_cases hr : r.stock_number = v.stock_number
    · rw [if_pos hr]
      rw [List.find?_cons_of_neg, List.find?_cons_of_neg]
      · exact ih
      · simp only [decide_eq_true_eq]
        rw [hr]
        exact fun h => hk h.symm
      · simp only [decide_eq_true_eq]
        exact fun h => hk h.symm
    · rw [if_neg hr]
      by_cases h2 : r.stock_number = key
      · rw [List.find?_cons_of_pos _ (by simpa using h2),
          List.find?_cons_of_pos _ (by simpa using h2)]
      · rw [List.find?_cons_of_neg _ (by simpa using h2),
          List.find?_cons_of_neg _ (by simpa using h2)]
        exact ih

theorem lookup_append (s1 s2 : Store) (key : String) :
    lookup (s1 ++ s2) key =
      match lookup s1 key with
      | some r => some r
      | none => lookup s2 key := by
  induction s1 with
  | nil => simp [lookup]
  | cons r rs ih =>
    by_cases h : r.stock_number = key
    · simp [lookup, List.find?, h]
    · simpa [lookup, List.find?, h] using ih

theorem lookup_eq_none_iff_any (store : Store) (key : String) :
    lookup store key = none ↔
      store.any (fun r => r.stock_number = key) = false := by
  constructor
  · intro h
    rw [Bool.eq_false_iff]
    intro hany
    obtain ⟨r, hr, hkey⟩ := List.any_eq_true.mp hany
    have := List.find?_eq_none.mp h r hr
    simp only [decide_eq_true_eq] at this hkey
    exact this hkey
  · intro h
    apply List.find?_eq_none.mpr
    intro r hr
    simp only [decide_eq_true_eq]
    intro hkey
    have : store.any (fun r => r.stock_number = key) = true :=
      List.any_eq_true.mpr ⟨r, hr, by simpa using hkey⟩
    rw [h] at this
    cases this

theorem lookup_upsert (store : Store) (v : VehicleRecord) (key : String) :
    lookup (upsert store v).1 key =
      if key = v.stock_number then some v else lookup store key := by
  unfold upsert
  by_cases h : store.any (fun r => r.stock_number = v.stock_number) = true
  · rw [if_pos h]
    show lookup (store.map fun r => if r.stock_number = v.stock_number then v else r) key = _
    by_cases hk : key = v.stock_number
    · subst hk
      rw [if_pos rfl]
      exact find_replace_self store v h
    · rw [if_neg hk]
      exact find_replace_other store v key hk
  · rw [if_neg h]
    show lookup (store ++ [v]) key = _
    rw [lookup_append]
    by_cases hk : key = v.stock_number
    · subst hk
      have hnone : lookup store v.stock_number = none :=
        (lookup_eq_none_iff_any store v.stock_number).mpr (Bool.eq_false_iff.mpr h)
      rw [hnone, if_pos rfl]
      show lookup [v] v.stock_number = some v
      unfold lookup
      exact List.find?_cons_of_pos _ (by simp)
    · rw [if_neg hk]
      have hv : lookup [v] key = none := by
        unfold lookup
        rw [List.find?_cons_of_neg _ (by simpa using fun hvk => hk hvk.symm)]
        rfl
      rw [hv]
      cases hfind : lookup store key <;> rfl

theorem keys_upsert (store : Store) (v : VehicleRecord) :
    (upsert store v).1.map (fun r => r.stock_number) =
      if store.any (fun r => r.stock_number = v.stock_number) = true then
        store.map (fun r => r.stock_number)
      else store.map (fun r => r.stock_number) ++ [v.stock_number] := by
  unfold upsert
  by_cases h : store.any (fun r => r.stock_number = v.stock_number) = true
  · rw [if_pos h, if_pos h, List.map_map]
    exact List.map_congr_left fun r _ => stock_of_replace r v
  · rw [if_neg h, if_neg h, List.map_append]
    rfl

theorem getLast?_cons_eq (a : α) (l : List α) :
    (a :: l).getLast? =
      match l.getLast? with
      | some r => some r
      | none => some a := by
  cases l with
  | nil => rfl
  | cons b bs =>
    rw [List.getLast?_cons_cons]
    cases hbs : (b :: bs).getLast? with
    | some r => rfl
    | none =>
      exfalso
      induction bs generalizing b with
      | nil => cases hbs
      | cons c cs ih =>
        rw [List.getLast?_cons_cons] at hbs
        exact ih c hbs

theorem lookup_reconcile (vs : List VehicleRecord) (store : Store) (key : String) :
    lookup (reconcile store vs) key =
      match (vs.filter (fun r => r.stock_number = key)).getLast? with
      | some r => some r
      | none => lookup store key := by
  induction vs generalizing store with
  | nil => rfl
  | cons v rest ih =>
    show lookup (reconcile (upsert store v).1 rest) key = _
    rw [ih]
    by_cases hk : key = v.stock_number
    · have hfil : (v :: rest).filter (fun r => r.stock_number = key) =
          v :: rest.filter (fun r => r.stock_number = key) := by
        rw [List.filter_cons_of_pos (by simpa using hk.symm)]
      rw [hfil, getLast?_cons_eq]
      cases hrest : (rest.filter (fun r => r.stock_number = key)).getLast? with
      | some r => rfl
      | none =>
        rw [lookup_upsert, if_pos hk]
    · have hfil : (v :: rest).filter (fun r => r.stock_number = key) =
          rest.filter (fun r => r.stock_number = key) := by
        rw [List.filter_cons_of_neg (by simpa using fun hvk => hk hvk.symm)]
      rw [hfil]
      cases hrest : (rest.filter (fun r => r.stock_number = key)).getLast? with
      | some r => rfl
      | none =>
        rw [lookup_upsert, if_neg hk]

theorem nodup_keys_upsert (store : Store) (v : VehicleRecord)
    (h : (store.map (fun r => r.stock_number)).Nodup) :
    ((upsert store v).1.map (fun r => r.stock_number)).Nodup := by
  rw [keys_upsert]
  by_cases hany : store.any (fun r => r.stock_number = v.stock_number) = true
  · rwa [if_pos hany]
  · rw [if_neg hany]
    rw [(List.perm_append_singleton _ _).nodup_iff, List.nodup_cons]
    refine ⟨?_, h⟩
    intro hmem
    obtain ⟨r, hr, hkey⟩ := List.mem_map.mp hmem
    exact hany (List.any_eq_true.mpr ⟨r, hr, by simpa using hkey⟩)

theorem keys_toFinset_reconcile (vs : List VehicleRecord) (store : Store) :
    ((reconcile store vs).map (fun r => r.stock_number)).toFinset =
      (store.map (fun r => r.stock_number)).toFinset ∪
        (vs.map (fun r => r.stock_number)).toFinset := by
  induction vs generalizing store with
  | nil => simp [reconcile]
  | cons v rest ih =>
    show ((reconcile (upsert store v).1 rest).map (fun r => r.stock_number)).toFinset = _
    rw [ih, keys_upsert]
    by_cases hany : store.any (fun r => r.stock_number = v.stock_number) = true
    · rw [if_pos hany]
      obtain ⟨r, hr, hkey⟩ := List.any_eq_true.mp hany
      have hmem : v.stock_number ∈ (store.map (fun r => r.stock_number)).toFinset := by
        rw [List.mem_toFinset, List.mem_map]
        exact ⟨r, hr, by simpa using hkey⟩
      rw [List.map_cons, List.toFinset_cons]
      ext x
      simp only [Finset.mem_union, Finset.mem_insert]
      constructor
      · rintro (hx | hx)
        · exact Or.inl hx
        · exact Or.inr (Or.inr hx)
      · rintro (hx | hx | hx)
        · exact Or.inl hx
        · exact Or.inl (hx ▸ hmem)
        · exact Or.inr hx
    · rw [if_neg hany, List.toFinset_append, List.map_cons, List.toFinset_cons]
      ext x
      simp only [Finset.mem_union, Finset.mem_insert, List.toFinset_cons,
        List.toFinset_nil, Finset.mem_singleton, Finset.not_mem_empty,
        Finset.mem_insert, or_false]
      tauto

theorem nodup_keys_reconcile (vs : List VehicleRecord) (store : Store)
    (h : (store.map (fun r => r.stock_number)).Nodup) :
    ((reconcile store vs).map (fun r => r.stock_number)).Nodup := by
  induction vs generalizing store with
  | nil => exact h
  | cons v rest ih => exact ih _ (nodup_keys_upsert store v h)

/-- C3: reconciliation is idempotent and last-write-wins on the natural key.
Upserting a record whose stock_number is not yet stored yields one insert
then, repeated, one update, and the stored row afterwards equals the input
record; reconciling N records into an empty store leaves exactly as many
rows as there are distinct stock numbers, and every stock number maps to the
most-recently-applied record carrying it. -/
theorem reconcile_idempotent_last_write_wins :
    (∀ (store : Store) (v : VehicleRecord),
        lookup store v.stock_number = none →
        (upsert store v).2 = true ∧
        (upsert (upsert store v).1 v).2 = false ∧
        lookup (upsert (upsert store v).1 v).1 v.stock_number = some v) ∧
    (∀ records : List VehicleRecord,
        (reconcile [] records).length =
          ((records.map (fun r => r.stock_number)).toFinset).card ∧
        ∀ key, lookup (reconcile [] records) key =
          (records.filter (fun r => r.stock_number = key)).getLast?) := by
  constructor
  · intro store v hnone
    have hany : store.any (fun r => r.stock_number = v.stock_number) = false :=
      (lookup_eq_none_iff_any store v.stock_number).mp hnone
    have h1 : upsert store v = (store ++ [v], true) := by
      unfold upsert
      rw [if_neg (by simp [hany])]
    have hmem : (store ++ [v]).any (fun r => r.stock_number = v.stock_number) = true :=
      List.any_eq_true.mpr ⟨v, by simp, by simp⟩
    refine ⟨by rw [h1], ?_, ?_⟩
    · rw [h1]
      show (upsert (store ++ [v]) v).2 = false
      unfold upsert
      rw [if_pos hmem]
    · rw [h1]
      show lookup (upsert (store ++ [v]) v).1 v.stock_number = some v
      rw [lookup_upsert, if_pos rfl]
  · intro records
    constructor
    · have hnd := nodup_keys_reconcile records [] (by simp)
      have hfin := keys_toFinset_reconcile records []
      have hcard := List.toFinset_card_of_nodup hnd
      calc (reconcile [] records).length
          = ((reconcile [] records).map (fun r => r.stock_number)).length :=
            (List.length_map _ _).symm
        _ = ((reconcile [] records).map (fun r => r.stock_number)).toFinset.card :=
            hcard.symm
        _ = ((records.map (fun r => r.stock_number)).toFinset).card := by
            rw [hfin]
            simp
    · intro key
      rw [lookup_reconcile]
      cases h : (records.filter (fun r => r.stock_number = key)).getLast? with
      | some r => rfl
      | none => rfl

theorem reconcile_idempotent_witness :
    (upsert [] sampleRec).2 = true ∧
    (upsert (upsert [] sampleRec).1 sampleRec).2 = false ∧
    lookup (upsert (upsert [] sampleRec).1 sampleRec).1 sampleRec.stock_number = some sampleRec ∧
    (reconcile [] [sampleRec, sampleRec2, sampleRecB]).length = 2 ∧
    lookup (reconcile [] [sampleRec, sampleRec2, sampleRecB]) "M37385" = some sampleRecB := by
  obtain ⟨h1, h2, h3⟩ := reconcile_idempotent_last_write_wins.1 [] sampleRec rfl
  have h4 := (reconcile_idempotent_last_write_wins.2 [sampleRec, sampleRec2, sampleRecB]).1
  have h5 := (reconcile_idempotent_last_write_wins.2 [sampleRec, sampleRec2, sampleRecB]).2 "M37385"
  refine ⟨h1, h2, h3, ?_, ?_⟩
  · rw [h4]
    decide
  · rw [h5]
    decide

theorem reconcileCounts_total (db : Nat → UpsertOutcome) (vs : List VehicleRecord) (i : Nat) :
    (reconcileCounts db vs i).1 + (reconcileCounts db vs i).2.1 +
      (reconcileCounts db vs i).2.2 = vs.length := by
  induction vs generalizing i with
  | nil => rfl
  | cons v rest ih =>
    have h := ih (i + 1)
    simp only [reconcileCounts]
    cases hdb : db i <;> simp only [List.length_cons] <;> omega

/-- C4: the reconciliation loop processes every parsed record even when
individual upserts fail; for a non-empty parse result, the job outcome has
vehiclesFound equal to N and its three counters sum to N, whatever the
per-record database outcomes are. -/
theorem sync_processes_all_records (db : Nat → UpsertOutcome)
    (vehicles : List VehicleRecord) (h : vehicles ≠ []) :
    (syncOutcome db vehicles).vehiclesFound = vehicles.length ∧
    (syncOutcome db vehicles).inserted + (syncOutcome db vehicles).updated +
      (syncOutcome db vehicles).errors = vehicles.length ∧
    (syncOutcome db vehicles).success = true := by
  have hlen : ¬ vehicles.length = 0 := by
    simpa [List.length_eq_zero] using h
  unfold syncOutcome
  rw [if_neg hlen]
  exact ⟨rfl, reconcileCounts_total db vehicles 0, rfl⟩

theorem sync_processes_all_records_witness :
    (syncOutcome dbMixed [sampleRec, sampleRec2, sampleRecB]).vehiclesFound = 3 ∧
    (syncOutcome dbMixed [sampleRec, sampleRec2, sampleRecB]).inserted +
      (syncOutcome dbMixed [sampleRec, sampleRec2, sampleRecB]).updated +
      (syncOutcome dbMixed [sampleRec, sampleRec2, sampleRecB]).errors = 3 := by
  have h := sync_processes_all_records dbMixed [sampleRec, sampleRec2, sampleRecB] (by decide)
  exact ⟨h.1, h.2.1⟩

/-- C7: when parsing yields zero vehicle records, the job returns (rather
than throws) the structured outcome with success false, the explanatory
error string, and all four numeric fields zero — distinguishable from the
success shape, whose success flag is true and whose error is absent. -/
theorem sync_empty_returns_structured_failure (db : Nat → UpsertOutcome) :
    syncOutcome db [] =
      { success := false, error := some "No vehicles found in table",
        vehiclesFound := 0, inserted := 0, updated := 0, errors := 0 } ∧
    (∀ vehicles : List VehicleRecord, vehicles ≠ [] →
      (syncOutcome db vehicles).success = true ∧
      (syncOutcome db vehicles).error = none) := by
  constructor
  · rfl
  · intro vehicles h
    have hlen : ¬ vehicles.length = 0 := by
      simpa [List.length_eq_zero] using h
    unfold syncOutcome
    rw [if_neg hlen]
    exact ⟨rfl, rfl⟩

theorem sync_empty_witness :
    syncOutcome dbUpd [] =
      { success := false, error := some "No vehicles found in table",
        vehiclesFound := 0, inserted := 0, updated := 0, errors := 0 } ∧
    (syncOutcome dbUpd [sampleRec]).success = true := by
  refine ⟨(sync_empty_returns_structured_failure dbUpd).1, ?_⟩
  exact ((sync_empty_returns_structured_failure dbUpd).2 [sampleRec] (by decide)).1

theorem discoverLoop_exhausted (sched : Nat → Option (List Frame)) (fuel attempt : Nat)
    (h : ∀ n, attempt < n → n ≤ attempt + fuel →
      ∀ fs, sched n = some fs → fs.find? frameQualifies = none) :
    discoverLoop sched attempt fuel = (attempt + fuel, none) := by
  induction fuel generalizing attempt with
  | zero => rfl
  | succ fuel ih =>
    have harith : attempt + (fuel + 1) = (attempt + 1) + fuel := by omega
    have hnext : ∀ n, attempt + 1 < n → n ≤ (attempt + 1) + fuel →
        ∀ fs, sched n = some fs → fs.find? frameQualifies = none :=
      fun n h1 h2 fs hfs => h n (by omega) (by omega) fs hfs
    cases hs : sched (attempt + 1) with
    | none =>
      simp only [discoverLoop, hs]
      rw [harith]
      exact ih (attempt + 1) hnext
    | some frames =>
      have hnone := h (attempt + 1) (by omega) (by omega) frames hs
      simp only [discoverLoop, hs, hnone]
      rw [harith]
      exact ih (attempt + 1) hnext

theorem discoverLoop_first_hit (sched : Nat → Option (List Frame)) (fuel : Nat)
    (k : Nat) (frames : List Frame) (f : Frame)
    (hsched : sched k = some frames) (hfind : frames.find? frameQualifies = some f) :
    ∀ attempt, attempt < k → k ≤ attempt + fuel →
    (∀ n, attempt < n → n < k → ∀ fs, sched n = some fs → fs.find? frameQualifies = none) →
    discoverLoop sched attempt fuel = (k, some f) := by
  induction fuel with
  | zero =>
    intro attempt hk1 hk2 _
    omega
  | succ fuel ih =>
    intro attempt hk1 hk2 hbefore
    by_cases hak : attempt + 1 = k
    · subst hak
      simp only [discoverLoop, hsched, hfind]
    · have hlt : attempt + 1 < k := by omega
      have hnext : ∀ n, attempt + 1 < n → n < k →
          ∀ fs, sched n = some fs → fs.find? frameQualifies = none :=
        fun n h1 h2 => hbefore n (by omega) h2
      cases hs : sched (attempt + 1) with
      | none =>
        simp only [discoverLoop, hs]
        exact ih (attempt + 1) hlt (by omega) hnext
      | some fs =>
        have hnone := hbefore (attempt + 1) (by omega) hlt fs hs
        simp only [discoverLoop, hs, hnone]
        exact ih (attempt + 1) hlt (by omega) hnext

/-- C5: the inventory-discovery polling loop is bounded at 15 attempts two
seconds apart; a signin.coxautoinc.com frame is never selected, the first
frame in enumeration order whose table has more than 50 cells is selected and
the loop exits at that attempt; when no attempt up to the 15th observes a
qualifying frame, the loop fails after exactly 15 attempts with the
descriptive error, while a qualifying frame first visible on attempt
k ≤ 15 — for instance the 10th — makes discovery succeed at attempt k. -/
theorem discovery_polling_bounds (sched : Nat → Option (List Frame)) :
    maxAttempts = 15 ∧ interAttemptDelayMs = 2000 ∧
    ((∀ n, 1 ≤ n → n ≤ 15 → ∀ fs, sched n = some fs → fs.find? frameQualifies = none) →
      discoverInventoryFrame sched = (15, none) ∧
      discoveryResult sched =
        Except.error "Could not find iframe containing inventory table after 30 seconds") ∧
    (∀ (k : Nat) (frames : List Frame) (f : Frame), 1 ≤ k → k ≤ 15 →
      (∀ n, 1 ≤ n → n < k → ∀ fs, sched n = some fs → fs.find? frameQualifies = none) →
      sched k = some frames → frames.find? frameQualifies = some f →
      discoverInventoryFrame sched = (k, some f) ∧
      discoveryResult sched = Except.ok f ∧
      jsIncludes f.url "signin.coxautoinc.com" = false ∧
      f.hasTable = true ∧ 50 < f.cellCount) := by
  refine ⟨rfl, rfl, ?_, ?_⟩
  · intro h
    have hloop : discoverLoop sched 0 15 = (15, none) :=
      discoverLoop_exhausted sched 15 0
        (fun n h1 h2 fs hfs => h n (by omega) (by omega) fs hfs)
    have hdisc : discoverInventoryFrame sched = (15, none) := hloop
    refine ⟨hdisc, ?_⟩
    unfold discoveryResult
    rw [hdisc]
  · intro k frames f hk1 hk15 hbefore hsched hfind
    have hloop : discoverLoop sched 0 15 = (k, some f) :=
      discoverLoop_first_hit sched 15 k frames f hsched hfind 0 (by omega) (by omega)
        (fun n h1 h2 fs hfs => hbefore n (by omega) h2 fs hfs)
    have hdisc : discoverInventoryFrame sched = (k, some f) := hloop
    have hq : frameQualifies f = true := List.find?_some hfind
    unfold frameQualifies at hq
    rw [Bool.and_eq_true, Bool.and_eq_true] at hq
    refine ⟨hdisc, ?_, ?_, hq.1.2, by simpa using hq.2⟩
    · unfold discoveryResult
      rw [hdisc]
    · simpa using hq.1.1

theorem discovery_polling_witness :
    discoverInventoryFrame sched10 = (10, some frame96) ∧
    discoverInventoryFrame schedNever = (15, none) := by
  constructor
  · refine ((discovery_polling_bounds sched10).2.2.2 10 [frame96] frame96
      (by omega) (by omega) ?_ ?_ (by decide)).1
    · intro n _ h2 fs hfs
      have hne : ¬ n = 10 := by omega
      simp only [sched10, if_neg hne, Option.some.injEq] at hfs
      rw [← hfs]
      rfl
    · simp [sched10]
  · refine ((discovery_polling_bounds schedNever).2.2.1 ?_).1
    intro n _ _ fs hfs
    simp only [schedNever, Option.some.injEq] at hfs
    rw [← hfs]
    rfl

theorem parseDataRows_append (l1 l2 : List (List String)) :
    parseDataRows (l1 ++ l2) = parseDataRows l1 ++ parseDataRows l2 := by
  unfold parseDataRows
  rw [List.map_append, List.filterMap_append, List.filter_append]

theorem parseDataRows_disqualified (bad : List String)
    (h : bad.length < 8 ∨ cellText bad 1 = "") :
    parseDataRows [bad] = [] := by
  by_cases h8 : bad.length < 8
  · have hrow : parseRow bad = none := by
      unfold parseRow
      rw [if_pos h8]
    simp [parseDataRows, hrow]
  · have hstock : cellText bad 1 = "" := h.resolve_left h8
    have hrow : parseRow bad =
        some { stock_number := cellText bad 1,
               year := (parseYearMake (cellText bad 4)).1,
               make := (parseYearMake (cellText bad 4)).2,
               model := cellText bad 5, trimLevel := cellText bad 6,
               vin := if cellText bad 7 = "" then none else some (cellText bad 7),
               status := "available" } := by
      unfold parseRow
      rw [if_neg h8]
    simp [parseDataRows, hrow, hstock]

/-- C6: a table row with fewer than 8 cells, or whose derived stock number is
empty after trimming, contributes nothing to the parsing output — removing
such a row leaves the output unchanged — and every record in the output has a
non-empty stock number, so no null or partial record is ever emitted. -/
theorem short_or_stockless_rows_excluded (pre post : List (List String)) (bad : List String)
    (h : bad.length < 8 ∨ cellText bad 1 = "") :
    parseDataRows (pre ++ bad :: post) = parseDataRows (pre ++ post) ∧
    ∀ rec ∈ parseDataRows (pre ++ bad :: post), rec.stock_number ≠ "" := by
  constructor
  · have hsplit : pre ++ bad :: post = pre ++ ([bad] ++ post) := by simp
    rw [hsplit, parseDataRows_append, parseDataRows_append,
      parseDataRows_disqualified bad h, parseDataRows_append]
    simp
  · intro rec hrec
    unfold parseDataRows at hrec
    simpa using (List.mem_filter.mp hrec).2

theorem short_or_stockless_rows_witness :
    parseDataRows [headerRow, sampleRow] = parseDataRows [sampleRow] := by
  exact (short_or_stockless_rows_excluded [] [sampleRow] headerRow (Or.inl (by decide))).1

/-- C2 (amended): in the combined year/make column, a numeric year token with
value in [1,99] is recorded as 2000 plus the value and a value of at least
100 passes through unchanged; a non-numeric year token leaves the record's
year absent without discarding the row; the token 0, however, is also
recorded as absent (parseInt's result 0 is falsy), not as 2000. -/
theorem year_normalization_and_passthrough (cells : List String) (yearStr : String)
    (rest : List String)
    (h8 : 8 ≤ cells.length)
    (hstock : cellText cells 1 ≠ "")
    (hsplit : jsSplitWs (cellText cells 4) = yearStr :: rest)
    (hrest : rest ≠ []) :
    ∃ rec, parseRow cells = some rec ∧ parseDataRows [cells] = [rec] ∧
      (∀ y : Int, jsParseInt yearStr = some y → 1 ≤ y → y ≤ 99 →
        rec.year = some (2000 + y)) ∧
      (∀ y : Int, jsParseInt yearStr = some y → 100 ≤ y → rec.year = some y) ∧
      (jsParseInt yearStr = none → rec.year = none) := by
  have h8' : ¬ cells.length < 8 := by omega
  have hne : cellText cells 4 ≠ "" := by
    intro h0
    rw [h0] at hsplit
    have hempty : jsSplitWs "" = [""] := by decide
    rw [hempty] at hsplit
    injection hsplit with h1 h2
    exact hrest h2.symm
  have hlen : 2 ≤ (yearStr :: rest).length := by
    cases rest with
    | nil => exact absurd rfl hrest
    | cons a l => simp [List.length_cons]
  have hstep : parseYearMake (cellText cells 4) =
      (match jsParseInt yearStr with
       | some y =>
         if y ≠ 0 then
           (if y < 100 then (some (2000 + y), String.intercalate " " rest)
            else (some y, String.intercalate " " rest))
         else (none, String.intercalate " " rest)
       | none => (none, String.intercalate " " rest)) := by
    simp only [parseYearMake]
    rw [if_pos hne, hsplit, if_pos hlen]
    simp only [List.headD_cons, List.drop_succ_cons, List.drop_zero]
  have hrow : parseRow cells =
      some { stock_number := cellText cells 1,
             year := (parseYearMake (cellText cells 4)).1,
             make := (parseYearMake (cellText cells 4)).2,
             model := cellText cells 5, trimLevel := cellText cells 6,
             vin := if cellText cells 7 = "" then none else some (cellText cells 7),
             status := "available" } := by
    unfold parseRow
    rw [if_neg h8']
  refine ⟨_, hrow, ?_, ?_, ?_, ?_⟩
  · simp [parseDataRows, hrow, hstock]
  · intro y hy h1 h99
    show (parseYearMake (cellText cells 4)).1 = some (2000 + y)
    rw [hstep, hy]
    have h0 : y ≠ 0 := by omega
    have hlt : y < 100 := by omega
    simp [h0, hlt]
  · intro y hy h100
    show (parseYearMake (cellText cells 4)).1 = some y
    rw [hstep, hy]
    have h0 : y ≠ 0 := by omega
    have hlt : ¬ y < 100 := by omega
    simp [h0, hlt]
  · intro hy
    show (parseYearMake (cellText cells 4)).1 = none
    rw [hstep, hy]

theorem year_normalization_witness :
    ∃ rec, parseRow sampleRow = some rec ∧ parseDataRows [sampleRow] = [rec] ∧
      rec.year = some (2000 + 24) := by
  obtain ⟨rec, h1, h2, h3, _, _⟩ :=
    year_normalization_and_passthrough sampleRow "24" ["Chevrolet"]
      (by decide) (by decide) (by decide) (by decide)
  exact ⟨rec, h1, h2, h3 24 (by decide) (by decide) (by decide)⟩

theorem year_zero_counterexample :
    ((parseRow zeroRow).map VehicleRecord.year) = some none ∧
    (some (none : Option Int)) ≠ some (some ((2000 : Int) + 0)) ∧
    (parseDataRows [zeroRow]).length = 1 := by
  decide

/-- C1 (amended): when an internal token is configured (non-empty), every
POST /agent/reply request whose authorization header does not yield that
token — including a missing header — is rejected with status 401 and no
upstream call is made; when the token configuration is missing or empty,
however, requireAuth fails open and the request proceeds (see the
counterexample). -/
theorem auth_rejects_before_upstream (env : AgentEnv) (req : AgentRequest)
    (upstream : String → String → UpstreamResult)
    (hconf : jsTruthyStr env.internalToken = true)
    (hbad : req.authHeader.map (fun h => jsReplaceFirst h "Bearer " "") ≠ env.internalToken) :
    (agentReply env req upstream).1.status = 401 ∧
    (agentReply env req upstream).1.error = some "Unauthorized" ∧
    (agentReply env req upstream).2 = false := by
  have hauth : requireAuth req.authHeader env.internalToken = false := by
    unfold requireAuth
    rw [hconf]
    simp only [Bool.not_true, Bool.false_or]
    exact beq_eq_false_iff_ne.mpr hbad
  unfold agentReply
  rw [hauth]
  exact ⟨rfl, rfl, rfl⟩

theorem auth_rejects_witness :
    (agentReply envTok reqNoAuth upstreamOk).1.status = 401 ∧
    (agentReply envTok reqNoAuth upstreamOk).2 = false := by
  have h := auth_rejects_before_upstream envTok reqNoAuth upstreamOk (by decide) (by decide)
  exact ⟨h.1, h.2.2⟩

theorem auth_missing_config_counterexample :
    envOpen.internalToken = none ∧
    reqNoAuth.authHeader = none ∧
    (agentReply envOpen reqNoAuth upstreamOk).1.status = 200 ∧
    (agentReply envOpen reqNoAuth upstreamOk).2 = true := by
  refine ⟨rfl, rfl, ?_, ?_⟩ <;> rfl

/-- C8 (amended): no input sanitization is performed before prompting — the
user prompt embeds the serialization of every provided turn verbatim, with no
60-turn cap, no per-turn trimming and no dropping of empty turns; on the
success path the endpoint returns exactly one suggestion, the extracted
reply, so the returned list trivially holds at most 3 entries. -/
theorem no_sanitization_single_suggestion :
    (∀ (messages : List Turn) (lead : Lead) (page : PageMeta),
      ∃ before after, buildUserPrompt messages lead page =
        before ++ (String.intercalate "\n" (messages.map serializeTurn) ++ after)) ∧
    (∀ (env : AgentEnv) (req : AgentRequest)
        (upstream : String → String → UpstreamResult) (v : JVal) (r : String),
      upstream (buildSystemPrompt "Quirk Chevrolet NH")
          (buildUserPrompt req.messages req.lead req.page) = UpstreamResult.parsed v →
      requireAuth req.authHeader env.internalToken = true →
      req.messages ≠ [] →
      jsTruthyStr env.openaiApiKey = true →
      extractReply v = some r →
      r ≠ "" →
      (agentReply env req upstream).1.suggestions = some [r] ∧ [r].length ≤ 3) := by
  constructor
  · intro messages lead page
    refine ⟨"CONVERSATION CONTEXT:\n" ++
      ((if 0 < (contextLines lead page).length then
          String.intercalate "\n" (contextLines lead page) ++ "\n\n" else "") ++
        "CONVERSATION HISTORY:\n"),
      "\n\nGenerate ONE natural, engaging reply for the sales rep to send.", ?_⟩
    unfold buildUserPrompt
    simp [String.append_assoc]
  · intro env req upstream v r hup hauth hmsg hkey hex hr
    have hlen : ¬ req.messages.length = 0 := by
      simpa [List.length_eq_zero] using hmsg
    unfold agentReply
    rw [if_neg (by simp [hauth]), if_neg hlen, if_neg (by simp [hkey]), hup]
    simp only [hex]
    rw [if_pos hr]
    exact ⟨rfl, by simp⟩

theorem no_sanitization_witness :
    (∃ before after, buildUserPrompt [sampleTurn] emptyLead emptyPage =
      before ++ (String.intercalate "\n" ([sampleTurn].map serializeTurn) ++ after)) ∧
    (agentReply envOpen reqNoAuth upstreamOk).1.suggestions = some ["Happy to help!"] := by
  refine ⟨no_sanitization_single_suggestion.1 [sampleTurn] emptyLead emptyPage, ?_⟩
  exact (no_sanitization_single_suggestion.2 envOpen reqNoAuth upstreamOk
    (JVal.jobj [("reply", JVal.jstr "Happy to help!")]) "Happy to help!"
    rfl rfl (by decide) rfl (by decide) (by decide)).1

set_option maxRecDepth 200000 in
theorem no_sanitization_counterexample :
    c8msgs.length = 61 ∧
    jsIncludes (buildUserPrompt c8msgs emptyLead emptyPage) ("Customer: " ++ "OLDEST") = true ∧
    jsIncludes (buildUserPrompt c8msgs emptyLead emptyPage) ("Customer: " ++ "   ") = true := by
  decide

/-- C9 (amended): every failure response produced inside the /agent/reply
handler — empty-messages 400, missing-key 500, unparsable upstream output,
and each upstream error class — carries a suggestions field that is the
empty array; the requireAuth 401 rejection, however, has a body with no
suggestions field at all. -/
theorem failure_responses_suggestions_shape (env : AgentEnv) (req : AgentRequest)
    (upstream : String → String → UpstreamResult)
    (h : (agentReply env req upstream).1.status ≠ 200) :
    (agentReply env req upstream).1.suggestions = some [] ∨
    ((agentReply env req upstream).1.status = 401 ∧
      (agentReply env req upstream).1.suggestions = none) := by
  by_cases hauth : requireAuth req.authHeader env.internalToken = true
  · by_cases hmsg : req.messages.length = 0
    · left
      simp [agentReply, hauth, hmsg]
    · by_cases hkey : jsTruthyStr env.openaiApiKey = true
      · rcases hup : upstream (buildSystemPrompt "Quirk Chevrolet NH")
            (buildUserPrompt req.messages req.lead req.page) with v | raw | msg
        · rcases hex : extractReply v with _ | r
          · left
            simp [agentReply, hauth, hmsg, hkey, hup, hex]
          · by_cases hr : r = ""
            · left
              simp [agentReply, hauth, hmsg, hkey, hup, hex, hr]
            · exfalso
              apply h
              simp [agentReply, hauth, hmsg, hkey, hup, hex, hr]
        · left
          simp [agentReply, hauth, hmsg, hkey, hup]
        · left
          simp only [agentReply, hauth, hmsg, hkey, hup]
          simp only [Bool.not_true, Bool.false_eq_true, if_false, hmsg, hkey,
            ite_false, ite_true]
          split_ifs <;> simp
      · left
        simp [agentReply, hauth, hmsg, hkey]
  · right
    have hfalse : requireAuth req.authHeader env.internalToken = false :=
      Bool.eq_false_iff.mpr hauth
    constructor <;> simp [agentReply, hfalse]

theorem failure_shape_witness :
    (agentReply envOpen reqEmpty upstreamOk).1.status = 400 ∧
    (agentReply envOpen reqEmpty upstreamOk).1.suggestions = some [] := by
  have h := failure_responses_suggestions_shape envOpen reqEmpty upstreamOk (by decide)
  refine ⟨rfl, ?_⟩
  rcases h with h | ⟨h1, _⟩
  · exact h
  · exact absurd h1 (by decide)

theorem auth_401_no_suggestions_counterexample :
    (agentReply envTok reqNoAuth upstreamOk).1.status = 401 ∧
    (agentReply envTok reqNoAuth upstreamOk).1.suggestions = none ∧
    (agentReply envTok reqNoAuth upstreamOk).1.suggestions ≠ some [] := by
  decide

set_option maxRecDepth 200000 in
/-- C10: a search query of length at least 2 all of whose whitespace tokens
have length at most 1 passes the length validation, filters out every token,
and builds the WHERE clause with zero term conditions, so the SQL text
contains the empty conjunct "AND ()"; the database rejecting that malformed
statement, the endpoint responds 500 with error "Search failed" and an empty
vehicles array rather than returning rows or a 400 validation error. -/
theorem search_short_tokens_malformed (q : String) (emsg : String)
    (db : String → List String → Except String (List VehicleRecord))
    (hlen : 2 ≤ q.length)
    (htok : ∀ t ∈ jsSplitWs (jsToLower q), t.length ≤ 1)
    (hdb : db (searchQuery []) [] = Except.error emsg) :
    searchTerms q = [] ∧
    jsIncludes (searchQuery []) "AND ()" = true ∧
    searchHandler db (some q) =
      { status := 500, success := false, error := some "Search failed",
        count := none, vehicles := [] } := by
  have hterms : searchTerms q = [] := by
    unfold searchTerms
    rw [List.filter_eq_nil_iff]
    intro t ht
    simp only [decide_eq_true_eq, not_lt]
    exact htok t ht
  have hq : q ≠ "" := by
    intro h0
    rw [h0] at hlen
    simp at hlen
  refine ⟨hterms, by decide, ?_⟩
  unfold searchHandler
  rw [if_neg (by simp [jsTruthyStr, hq, Nat.not_lt, hlen])]
  simp only [Option.getD_some, hterms, List.map_nil, hdb]

theorem search_short_tokens_witness :
    searchTerms "a b" = [] ∧
    searchHandler dbSyntaxErr (some "a b") =
      { status := 500, success := false, error := some "Search failed",
        count := none, vehicles := [] } := by
  have h := search_short_tokens_malformed "a b" "syntax error at or near \")\""
    dbSyntaxErr (by decide) (by decide) rfl
  exact ⟨h.1, h.2.2⟩

end VinAgent
